import Mathlib

/-
Verification of the mcp-trello repository: the rate-limiting gate
(token-bucket dual limiter) and the request dispatcher in
src/trello/client.ts, together with the constructor and tool-level
validation logic of TrelloClient.

Timestamps and token counts are modelled as Int, matching JavaScript
number arithmetic on Date.now() values and counters (no overflow at the
relevant magnitudes).
-/

namespace McpTrello

/-- Modelled from the spec: the repository imports `createTrelloRateLimiters`
from src/trello/rate-limiter.ts, a file missing from the source tree; this
TokenBucket structure follows the spec data model §3: capacity,
refillIntervalMs, current tokens, and the timestamp anchoring the current
refill window. -/
structure TokenBucket where
  capacity : Int
  refillIntervalMs : Int
  tokens : Int
  windowStartedAt : Int
deriving Repr, DecidableEq

/-- Modelled from the spec: operation `refillIfWindowElapsed(now)` of the
missing rate-limiter module — if `now - windowStartedAt >= refillIntervalMs`,
reset `tokens = capacity` and `windowStartedAt = now` (hard reset-to-full);
otherwise leave the bucket unchanged. -/
def refillIfWindowElapsed (b : TokenBucket) (now : Int) : TokenBucket :=
  if b.refillIntervalMs ≤ now - b.windowStartedAt then
    { b with tokens := b.capacity, windowStartedAt := now }
  else b

/-- Modelled from the spec: operation `tryConsume(now)` of the missing
rate-limiter module — first runs the refill check, then if `tokens > 0`
decrements and reports admitted, else reports denied with no further
state change. -/
def tryConsume (b : TokenBucket) (now : Int) : Bool × TokenBucket :=
  if (refillIfWindowElapsed b now).tokens > 0 then
    (true, { refillIfWindowElapsed b now with
             tokens := (refillIfWindowElapsed b now).tokens - 1 })
  else
    (false, refillIfWindowElapsed b now)

/-- The bucket state after a sequence of tryConsume calls at the given
timestamps. -/
def consumeSeq (b : TokenBucket) (ts : List Int) : TokenBucket :=
  ts.foldl (fun s t => (tryConsume s t).2) b

/-- Modelled from the spec: one combined admission check of the DualLimiter
(from the missing rate-limiter module) at instant `now` — both buckets run
their refill check, and one unit is consumed from each exactly when both have
a token available; otherwise neither is debited (no partial consumption). -/
def admissionStep (a b : TokenBucket) (now : Int) :
    Bool × TokenBucket × TokenBucket :=
  if 0 < (refillIfWindowElapsed a now).tokens ∧
     0 < (refillIfWindowElapsed b now).tokens then
    (true,
     { refillIfWindowElapsed a now with
       tokens := (refillIfWindowElapsed a now).tokens - 1 },
     { refillIfWindowElapsed b now with
       tokens := (refillIfWindowElapsed b now).tokens - 1 })
  else
    (false, refillIfWindowElapsed a now, refillIfWindowElapsed b now)

/-- Modelled from the spec: the polling loop behind `admit()` /
`waitForAvailable()` of the missing rate-limiter module — at each poll time
it runs one combined check, stopping as soon as a check admits; the Bool
records whether the call was admitted within the given poll times. -/
def admissionLoop (a b : TokenBucket) :
    List Int → Bool × TokenBucket × TokenBucket
  | [] => (false, a, b)
  | t :: ts =>
    match admissionStep a b t with
    | (true, a2, b2) => (true, a2, b2)
    | (false, a2, b2) => admissionLoop a2 b2 ts

/-- Modelled from the spec: `createTrelloRateLimiters` lives in the missing
src/trello/rate-limiter.ts; per the spec and README it builds the fixed pair
of buckets — 300 requests per 10000 ms scoped to the API key and 100 requests
per 10000 ms scoped to the token — both starting full at construction time. -/
def createTrelloRateLimiters (now : Int) : TokenBucket × TokenBucket :=
  (⟨300, 10000, 300, now⟩, ⟨100, 10000, 100, now⟩)

/-- Whether n consecutive tryConsume calls at the same instant all succeed. -/
def burstAdmits (b : TokenBucket) (now : Int) : Nat → Bool
  | 0 => true
  | n + 1 => (tryConsume b now).1 && burstAdmits (tryConsume b now).2 now n

/-- JavaScript string truthiness for possibly-undefined strings: undefined
and the empty string are falsy. -/
def truthy : Option String → Bool
  | none => false
  | some s => !s.isEmpty

/-- An axios error as inspected by handleRequest in src/trello/client.ts:
`error.response?.status`, `error.response?.data?.message`,
`error.response?.data`, `error.message`, `error.config?.url`; absent chains
are `none`. -/
structure AxiosError where
  responseStatus : Option Int
  responseDataMessage : Option String
  responseData : Option String
  message : String
  configUrl : Option String
deriving Repr, DecidableEq

/-- An error raised by a request function: either an axios error
(axios.isAxiosError true) or any other thrown value, kept as its message. -/
inductive ReqError where
  | axios (e : AxiosError)
  | other (message : String)
deriving Repr, DecidableEq

/-- The 429 test of handleRequest: `error.response?.status === 429` on an
axios error; any non-axios error is never a rate-limit rejection. -/
def isRateLimit : ReqError → Bool
  | .axios e => e.responseStatus == some 429
  | .other _ => false

/-- The errorMessage fallback chain of handleRequest:
`error.response?.data?.message || error.response?.data || error.message`. -/
def errorMessageOf (e : AxiosError) : String :=
  if truthy e.responseDataMessage then e.responseDataMessage.getD ""
  else if truthy e.responseData then e.responseData.getD ""
  else e.message

/-- Template-literal rendering of `error.response?.status` (undefined prints
as the string undefined). -/
def statusRepr : Option Int → String
  | none => "undefined"
  | some n => toString n

/-- The url fallback of handleRequest: `error.config?.url || "unknown"`. -/
def urlOf (e : AxiosError) : String :=
  if truthy e.configUrl then e.configUrl.getD "" else "unknown"

/-- The message of the new Error thrown by handleRequest for a non-429 axios
error. -/
def wrappedMessage (e : AxiosError) : String :=
  "Trello API error (" ++ statusRepr e.responseStatus ++ "): " ++
    errorMessageOf e ++ " [URL: " ++ urlOf e ++ "]"

/-- The value handleRequest ultimately throws for a terminal failure: a fresh
wrapping Error for an axios error, the original value rethrown otherwise. -/
inductive Thrown where
  | wrapped (msg : String)
  | reraised (e : ReqError)
deriving Repr, DecidableEq

def throwOf : ReqError → Thrown
  | .axios e => .wrapped (wrappedMessage e)
  | .other m => .reraised (.other m)

/-- The message carried by a thrown value. -/
def messageOfThrown : Thrown → String
  | .wrapped m => m
  | .reraised (.axios e) => e.message
  | .reraised (.other m) => m

/-- The descriptive detail of the original failure: the remote-reported
errorMessage chain for an axios error, the thrown message otherwise. -/
def detailOf : ReqError → String
  | .axios e => errorMessageOf e
  | .other m => m

/-- What one invocation of the wrapped request function does. -/
inductive Outcome (T : Type) where
  | ok (v : T)
  | err (e : ReqError)

def isRateLimitOutcome {T : Type} : Outcome T → Bool
  | .ok _ => false
  | .err e => isRateLimit e

/-- Externally observable events of one send: the rate-limiter gate admission
performed by the axios request interceptor, the invocation of the request
function, and the fixed backoff sleep. -/
inductive Event where
  | admitGate
  | invocation (attempt : Nat)
  | sleep (ms : Nat)
deriving Repr, DecidableEq

/-- handleRequest of src/trello/client.ts over a request function whose
behavior on its n-th invocation is `outcomes n`: awaits the request (each
invocation passing through the rate-limiter gate via the axios interceptor
installed in the constructor); on a 429 axios error sleeps 1000 ms and
recurses; on any other axios error throws the wrapping Error; on a non-axios
error rethrows. The Nat fuel bounds how many invocations are unrolled; `none`
means the computation was still retrying when the fuel ran out. -/
def handleRequest {T : Type} (outcomes : Nat → Outcome T) :
    Nat → Nat → List Event × Option (Except Thrown T)
  | _, 0 => ([], none)
  | attempt, fuel + 1 =>
    match outcomes attempt with
    | .ok v => ([.admitGate, .invocation attempt], some (.ok v))
    | .err e =>
      if isRateLimit e then
        let r := handleRequest outcomes (attempt + 1) fuel
        (.admitGate :: .invocation attempt :: .sleep 1000 :: r.1, r.2)
      else
        ([.admitGate, .invocation attempt], some (.error (throwOf e)))

/-- The number of request-function invocations in a trace. -/
def countInvocations : List Event → Nat
  | [] => 0
  | .invocation _ :: rest => countInvocations rest + 1
  | _ :: rest => countInvocations rest

/-- The js-or of two possibly-undefined strings: `a || b`. -/
def jsOr (a b : Option String) : Option String :=
  if truthy a then a else b

/-- The TrelloConfig of src/trello/types.ts as the constructor consumes it:
apiKey, token and boardId, each possibly undefined or empty. -/
structure TrelloConfig where
  apiKey : Option String
  token : Option String
  boardId : Option String
deriving Repr, DecidableEq

/-- The environment variables the constructor falls back to. -/
structure EnvVars where
  TRELLO_API_KEY : Option String
  TRELLO_TOKEN : Option String
  TRELLO_BOARD_ID : Option String
deriving Repr, DecidableEq

/-- The state a successful TrelloClient construction ends in: the axios
instance (base URL plus credential query params) and the rate-limiter pair,
with the possibly-absent board id. -/
structure ClientState where
  baseURL : String
  apiKey : String
  token : String
  boardId : Option String
  apiKeyBucket : TokenBucket
  tokenBucket : TokenBucket
deriving Repr, DecidableEq

def credentialsErrorMsg : String :=
  "Trello credentials are required. Provide them via config or set " ++
  "TRELLO_API_KEY and TRELLO_TOKEN environment variables. " ++
  "Get your API key from https://trello.com/app-key"

/-- The TrelloClient constructor of src/trello/client.ts: resolve apiKey,
token and boardId with env-var fallback, throw the descriptive error if the
api key or token is missing, and only then create the axios instance and the
rate limiters. -/
def constructClient (config : TrelloConfig) (env : EnvVars) (now : Int) :
    Except String ClientState :=
  let apiKey := jsOr config.apiKey env.TRELLO_API_KEY
  let token := jsOr config.token env.TRELLO_TOKEN
  let boardId := jsOr config.boardId env.TRELLO_BOARD_ID
  if !truthy apiKey || !truthy token then
    .error credentialsErrorMsg
  else
    .ok { baseURL := "https://api.trello.com/1",
          apiKey := apiKey.getD "",
          token := token.getD "",
          boardId := boardId,
          apiKeyBucket := (createTrelloRateLimiters now).1,
          tokenBucket := (createTrelloRateLimiters now).2 }

/-- One outbound Trello REST request as the tool handlers build it. -/
structure OutboundRequest where
  method : String
  path : String
  params : List (String × String)
deriving Repr, DecidableEq

def boardIdNotConfiguredMsg : String :=
  "Board ID is not configured. Please set TRELLO_BOARD_ID environment " ++
  "variable or provide boardId in the configuration."

def invalidBoardIdMsg (bid : String) : String :=
  "Invalid board ID format: \"" ++ bid ++ "\" (" ++
  toString bid.length ++ " characters). Trello board IDs must be 24 " ++
  "characters long. If you're using the short URL (like 'HIhpH6Zp'), " ++
  "please use the getMyBoards tool to find the full board ID."

/-- The addList tool handler of src/trello/client.ts: throws when
this.boardId is falsy, throws when its length is not 24, and only then
issues the POST /lists request through handleRequest. -/
def addList (boardId : Option String) (name : String) :
    Except String OutboundRequest :=
  if !truthy boardId then
    .error boardIdNotConfiguredMsg
  else
    let bid := boardId.getD ""
    if bid.length ≠ 24 then
      .error (invalidBoardIdMsg bid)
    else
      .ok { method := "POST", path := "/lists",
            params := [("name", name), ("idBoard", bid)] }

/-- Template-literal rendering of a possibly-undefined board id. -/
def interpolate : Option String → String
  | none => "undefined"
  | some s => s

/-- The getLists tool handler of src/trello/client.ts: no validation — it
always issues GET /boards/boardId/lists through handleRequest. -/
def getLists (boardId : Option String) : Except String OutboundRequest :=
  .ok { method := "GET",
        path := "/boards/" ++ interpolate boardId ++ "/lists",
        params := [] }

/-- Case-explicit description of a single tryConsume step. -/
lemma tryConsume_eq (b : TokenBucket) (now : Int) :
    tryConsume b now =
      if b.refillIntervalMs ≤ now - b.windowStartedAt then
        (if 0 < b.capacity then
           (true, ⟨b.capacity, b.refillIntervalMs, b.capacity - 1, now⟩)
         else
           (false, ⟨b.capacity, b.refillIntervalMs, b.capacity, now⟩))
      else
        (if 0 < b.tokens then
           (true, ⟨b.capacity, b.refillIntervalMs, b.tokens - 1,
                   b.windowStartedAt⟩)
         else (false, b)) := by
  by_cases hw : b.refillIntervalMs ≤ now - b.windowStartedAt
  · by_cases hc : 0 < b.capacity
    · simp [tryConsume, refillIfWindowElapsed, hw, hc]
    · simp [tryConsume, refillIfWindowElapsed, hw, hc]
  · by_cases ht : 0 < b.tokens
    · simp [tryConsume, refillIfWindowElapsed, hw, ht]
    · simp [tryConsume, refillIfWindowElapsed, hw, ht]

lemma tryConsume_capacity (b : TokenBucket) (now : Int) :
    (tryConsume b now).2.capacity = b.capacity := by
  rw [tryConsume_eq]
  split_ifs <;> rfl

lemma tryConsume_inv (b : TokenBucket) (now : Int)
    (h0 : 0 ≤ b.tokens) (h1 : b.tokens ≤ b.capacity) :
    0 ≤ (tryConsume b now).2.tokens ∧
      (tryConsume b now).2.tokens ≤ (tryConsume b now).2.capacity := by
  rw [tryConsume_eq]
  split_ifs <;> (try simp_all) <;> (try constructor) <;> omega

lemma consumeSeq_inv (b : TokenBucket) (ts : List Int)
    (h0 : 0 ≤ b.tokens) (h1 : b.tokens ≤ b.capacity) :
    0 ≤ (consumeSeq b ts).tokens ∧
      (consumeSeq b ts).tokens ≤ (consumeSeq b ts).capacity := by
  induction ts generalizing b with
  | nil => exact ⟨h0, h1⟩
  | cons t ts ih =>
      have hstep := tryConsume_inv b t h0 h1
      simpa [consumeSeq] using ih (tryConsume b t).2 hstep.1 hstep.2

lemma tryConsume_fail_mono (b : TokenBucket) (now : Int)
    (h1 : b.tokens ≤ b.capacity)
    (hfail : (tryConsume b now).1 = false) :
    b.tokens ≤ (tryConsume b now).2.tokens := by
  rw [tryConsume_eq] at hfail ⊢
  split_ifs at hfail ⊢ <;> (try simp_all) <;> omega

lemma tryConsume_decrease_success (b : TokenBucket) (now : Int)
    (h1 : b.tokens ≤ b.capacity)
    (hdec : (tryConsume b now).2.tokens < b.tokens) :
    (tryConsume b now).1 = true := by
  by_contra h
  have hfail : (tryConsume b now).1 = false := by
    cases hres : (tryConsume b now).1 <;> simp_all
  have := tryConsume_fail_mono b now h1 hfail
  omega

lemma tryConsume_increase_refill (b : TokenBucket) (now : Int)
    (hinc : b.tokens < (tryConsume b now).2.tokens) :
    b.refillIntervalMs ≤ now - b.windowStartedAt := by
  by_contra h
  rw [tryConsume_eq] at hinc
  split_ifs at hinc <;> (try simp_all) <;> omega

/-- C1: over any sequence of tryConsume calls at arbitrary timestamps the
token count stays within 0 ≤ tokens ≤ capacity; a single tryConsume never
lowers the count unless it reports success, and never raises it unless the
refill condition (elapsed time ≥ refillIntervalMs since windowStartedAt)
held at that call. -/
theorem tokenBucket_capacity_invariant (b : TokenBucket) (ts : List Int)
    (now : Int) (h0 : 0 ≤ b.tokens) (h1 : b.tokens ≤ b.capacity) :
    (0 ≤ (consumeSeq b ts).tokens ∧
       (consumeSeq b ts).tokens ≤ (consumeSeq b ts).capacity) ∧
    ((tryConsume b now).1 = false → b.tokens ≤ (tryConsume b now).2.tokens) ∧
    ((tryConsume b now).2.tokens < b.tokens → (tryConsume b now).1 = true) ∧
    (b.tokens < (tryConsume b now).2.tokens →
       b.refillIntervalMs ≤ now - b.windowStartedAt) := by
  refine ⟨consumeSeq_inv b ts h0 h1, ?_, ?_, ?_⟩
  · exact tryConsume_fail_mono b now h1
  · exact tryConsume_decrease_success b now h1
  · exact tryConsume_increase_refill b now

/-- Witness for C1 at a concrete bucket and timestamp sequence. -/
theorem tokenBucket_capacity_invariant_witness :
    let b : TokenBucket := ⟨3, 10000, 2, 0⟩
    (0 ≤ (consumeSeq b [5, 20, 10500, 10600]).tokens ∧
       (consumeSeq b [5, 20, 10500, 10600]).tokens ≤
         (consumeSeq b [5, 20, 10500, 10600]).capacity) ∧
    ((tryConsume b 7).1 = false → b.tokens ≤ (tryConsume b 7).2.tokens) ∧
    ((tryConsume b 7).2.tokens < b.tokens → (tryConsume b 7).1 = true) ∧
    (b.tokens < (tryConsume b 7).2.tokens →
       b.refillIntervalMs ≤ 7 - b.windowStartedAt) :=
  tokenBucket_capacity_invariant ⟨3, 10000, 2, 0⟩ [5, 20, 10500, 10600] 7
    (by decide) (by decide)

/-- C7: on an empty bucket, tryConsume performs a hard reset-to-full when the
window has elapsed — it succeeds, leaves tokens = capacity - 1 and
windowStartedAt = now — and when the window has not elapsed it fails with no
state change. -/
theorem tokenBucket_window_reset (b : TokenBucket) (now : Int)
    (h0 : b.tokens = 0) (hc : 0 < b.capacity) :
    (b.refillIntervalMs ≤ now - b.windowStartedAt →
       tryConsume b now =
         (true, ⟨b.capacity, b.refillIntervalMs, b.capacity - 1, now⟩)) ∧
    (now - b.windowStartedAt < b.refillIntervalMs →
       tryConsume b now = (false, b)) := by
  constructor
  · intro helapsed
    unfold tryConsume refillIfWindowElapsed
    simp [helapsed, hc]
  · intro hnot
    unfold tryConsume refillIfWindowElapsed
    have : ¬ b.refillIntervalMs ≤ now - b.windowStartedAt := by omega
    simp [this, h0]

/-- Witness for C7 at a concrete empty bucket, in both the elapsed and the
not-yet-elapsed case. -/
theorem tokenBucket_window_reset_witness :
    (let b : TokenBucket := ⟨5, 10000, 0, 0⟩
     tryConsume b 10000 = (true, ⟨5, 10000, 4, 10000⟩)) ∧
    (let b : TokenBucket := ⟨5, 10000, 0, 0⟩
     tryConsume b 9999 = (false, b)) :=
  ⟨(tokenBucket_window_reset ⟨5, 10000, 0, 0⟩ 10000 (by decide) (by decide)).1
     (by decide),
   (tokenBucket_window_reset ⟨5, 10000, 0, 0⟩ 9999 (by decide) (by decide)).2
     (by decide)⟩

lemma refill_tokens_mono (b : TokenBucket) (now : Int)
    (h1 : b.tokens ≤ b.capacity) :
    b.tokens ≤ (refillIfWindowElapsed b now).tokens := by
  unfold refillIfWindowElapsed
  split
  · exact h1
  · exact le_refl _

lemma refill_tokens_le_cap (b : TokenBucket) (now : Int)
    (h1 : b.tokens ≤ b.capacity) :
    (refillIfWindowElapsed b now).tokens ≤
      (refillIfWindowElapsed b now).capacity := by
  unfold refillIfWindowElapsed
  split
  · exact le_refl _
  · exact h1

lemma admissionStep_denied (a b : TokenBucket) (now : Int)
    (ha : a.tokens ≤ a.capacity) (hb : b.tokens ≤ b.capacity)
    (hden : (admissionStep a b now).1 = false) :
    a.tokens ≤ (admissionStep a b now).2.1.tokens ∧
      b.tokens ≤ (admissionStep a b now).2.2.tokens := by
  unfold admissionStep at hden ⊢
  split_ifs at hden ⊢ <;> try simp_all
  exact ⟨refill_tokens_mono a now ha, refill_tokens_mono b now hb⟩

lemma admissionStep_denied_inv (a b : TokenBucket) (now : Int)
    (ha : a.tokens ≤ a.capacity) (hb : b.tokens ≤ b.capacity)
    (hden : (admissionStep a b now).1 = false) :
    (admissionStep a b now).2.1.tokens ≤ (admissionStep a b now).2.1.capacity ∧
      (admissionStep a b now).2.2.tokens ≤
        (admissionStep a b now).2.2.capacity := by
  unfold admissionStep at hden ⊢
  split_ifs at hden ⊢ <;> try simp_all
  exact ⟨refill_tokens_le_cap a now ha, refill_tokens_le_cap b now hb⟩

lemma admissionLoop_denied (a b : TokenBucket) (ts : List Int)
    (ha : a.tokens ≤ a.capacity) (hb : b.tokens ≤ b.capacity) :
    ∀ a2 b2, admissionLoop a b ts = (false, a2, b2) →
      a.tokens ≤ a2.tokens ∧ b.tokens ≤ b2.tokens := by
  induction ts generalizing a b with
  | nil =>
      intro a2 b2 h
      simp [admissionLoop] at h
      obtain ⟨h1, h2⟩ := h
      subst h1; subst h2
      exact ⟨le_refl _, le_refl _⟩
  | cons t ts ih =>
      intro a2 b2 h
      unfold admissionLoop at h
      cases hstep : admissionStep a b t with
      | mk admitted rest =>
          cases admitted with
          | true => simp [hstep] at h
          | false =>
              simp [hstep] at h
              have hd : (admissionStep a b t).1 = false := by rw [hstep]
              have hmono := admissionStep_denied a b t ha hb hd
              have hinv := admissionStep_denied_inv a b t ha hb hd
              rw [hstep] at hmono hinv
              have := ih rest.1 rest.2 hinv.1 hinv.2 a2 b2 (by
                cases rest with
                | mk r1 r2 => simpa using h)
              exact ⟨le_trans hmono.1 this.1, le_trans hmono.2 this.2⟩

/-- C2: the combined check consumes from both buckets or from neither — a
single denied check never lowers either token count, and across a whole
sequence of denied polls (the Bool result still false) each bucket holds at
least as many tokens as it started with; in particular a bucket holding one
token is not drained while the other bucket waits to refill. -/
theorem dualLimiter_no_partial_debit (a b : TokenBucket) (now : Int)
    (ts : List Int) (a2 b2 : TokenBucket)
    (ha : a.tokens ≤ a.capacity) (hb : b.tokens ≤ b.capacity)
    (hstep : (admissionStep a b now).1 = false)
    (hloop : admissionLoop a b ts = (false, a2, b2)) :
    (a.tokens ≤ (admissionStep a b now).2.1.tokens ∧
       b.tokens ≤ (admissionStep a b now).2.2.tokens) ∧
    (a.tokens ≤ a2.tokens ∧ b.tokens ≤ b2.tokens) :=
  ⟨admissionStep_denied a b now ha hb hstep,
   admissionLoop_denied a b ts ha hb a2 b2 hloop⟩

/-- Witness for C2: bucket A holds 1 token (capacity 1), bucket B holds 0
(capacity 100, window not yet elapsed); over three denied polls A keeps its
token. -/
theorem dualLimiter_no_partial_debit_witness :
    ((1:Int) ≤ (admissionStep ⟨1, 10000, 1, 0⟩ ⟨100, 10000, 0, 0⟩ 10).2.1.tokens ∧
       (0:Int) ≤ (admissionStep ⟨1, 10000, 1, 0⟩ ⟨100, 10000, 0, 0⟩ 10).2.2.tokens) ∧
    ((1:Int) ≤ (1:Int) ∧ (0:Int) ≤ (0:Int)) := by
  have h := dualLimiter_no_partial_debit
    ⟨1, 10000, 1, 0⟩ ⟨100, 10000, 0, 0⟩ 10 [10, 20, 30]
    ⟨1, 10000, 1, 0⟩ ⟨100, 10000, 0, 0⟩
    (by decide) (by decide) (by decide) (by decide)
  exact ⟨h.1, h.2⟩

lemma burstAdmits_full (n : Nat) : ∀ b : TokenBucket, ∀ now : Int,
    0 < b.refillIntervalMs → b.windowStartedAt = now →
    (n : Int) ≤ b.tokens → burstAdmits b now n = true := by
  induction n with
  | zero => intro b now _ _ _; rfl
  | succ n ih =>
      intro b now hr hw hn
      have hn2 : (n:Int) + 1 ≤ b.tokens := by push_cast at hn; omega
      have hpos : 0 < b.tokens := by omega
      have hnorefill : ¬ b.refillIntervalMs ≤ now - b.windowStartedAt := by
        rw [hw]; omega
      have hstep : tryConsume b now =
          (true, ⟨b.capacity, b.refillIntervalMs, b.tokens - 1,
                  b.windowStartedAt⟩) := by
        rw [tryConsume_eq]
        simp [hnorefill, hpos]
      rw [burstAdmits, hstep]
      simp only [Bool.true_and]
      apply ih
      · exact hr
      · exact hw
      · show (n:Int) ≤ b.tokens - 1
        omega

/-- C8: the limiter pair is exactly the API-key bucket (capacity 300, window
10000 ms) and the token bucket (capacity 100, window 10000 ms), both starting
full at construction time, and each admits an immediate initial burst of any
n calls up to its capacity. -/
theorem limiter_construction (now : Int) (n m : Nat)
    (hn : n ≤ 300) (hm : m ≤ 100) :
    createTrelloRateLimiters now =
      (⟨300, 10000, 300, now⟩, ⟨100, 10000, 100, now⟩) ∧
    (createTrelloRateLimiters now).1.tokens =
      (createTrelloRateLimiters now).1.capacity ∧
    (createTrelloRateLimiters now).2.tokens =
      (createTrelloRateLimiters now).2.capacity ∧
    (createTrelloRateLimiters now).1.windowStartedAt = now ∧
    (createTrelloRateLimiters now).2.windowStartedAt = now ∧
    burstAdmits (createTrelloRateLimiters now).1 now n = true ∧
    burstAdmits (createTrelloRateLimiters now).2 now m = true := by
  refine ⟨rfl, rfl, rfl, rfl, rfl, ?_, ?_⟩
  · exact burstAdmits_full n ⟨300, 10000, 300, now⟩ now
      (show (0:Int) < 10000 by norm_num) rfl
      (show (n:Int) ≤ 300 by exact_mod_cast hn)
  · exact burstAdmits_full m ⟨100, 10000, 100, now⟩ now
      (show (0:Int) < 10000 by norm_num) rfl
      (show (m:Int) ≤ 100 by exact_mod_cast hm)

/-- Witness for C8: at construction time 0, a full burst of 300 calls on the
API-key bucket and 100 calls on the token bucket is admitted. -/
theorem limiter_construction_witness :
    createTrelloRateLimiters 0 =
      (⟨300, 10000, 300, 0⟩, ⟨100, 10000, 100, 0⟩) ∧
    (createTrelloRateLimiters 0).1.tokens =
      (createTrelloRateLimiters 0).1.capacity ∧
    (createTrelloRateLimiters 0).2.tokens =
      (createTrelloRateLimiters 0).2.capacity ∧
    (createTrelloRateLimiters 0).1.windowStartedAt = 0 ∧
    (createTrelloRateLimiters 0).2.windowStartedAt = 0 ∧
    burstAdmits (createTrelloRateLimiters 0).1 0 300 = true ∧
    burstAdmits (createTrelloRateLimiters 0).2 0 100 = true :=
  limiter_construction 0 300 100 (by decide) (by decide)

/-- C3: when the n-th invocation fails with a remote rate-limit rejection
(HTTP 429), handleRequest sleeps exactly 1000 ms and recursively re-enters
the same send/handle path at the next attempt, whose first event is again a
gate admission. -/
theorem rateLimit_backoff_retry {T : Type} (outcomes : Nat → Outcome T)
    (attempt fuel : Nat)
    (h : isRateLimitOutcome (outcomes attempt) = true) :
    handleRequest outcomes attempt (fuel + 2) =
      (.admitGate :: .invocation attempt :: .sleep 1000 ::
         (handleRequest outcomes (attempt + 1) (fuel + 1)).1,
       (handleRequest outcomes (attempt + 1) (fuel + 1)).2) ∧
    (handleRequest outcomes (attempt + 1) (fuel + 1)).1.head? =
      some .admitGate := by
  constructor
  · cases hout : outcomes attempt with
    | ok v => rw [hout] at h; simp [isRateLimitOutcome] at h
    | err e =>
        rw [hout] at h
        simp only [isRateLimitOutcome] at h
        rw [handleRequest, hout]
        simp [h]
  · rw [handleRequest]
    cases hout : outcomes (attempt + 1) with
    | ok v => rfl
    | err e => by_cases hr : isRateLimit e <;> simp [hr]

/-- Witness for C3 at a request function that is rate-limited on attempt 0. -/
theorem rateLimit_backoff_retry_witness :
    (handleRequest
       (fun n => if n = 0
         then Outcome.err (.axios ⟨some 429, none, none, "rl", none⟩)
         else Outcome.ok (7 : Nat)) 0 2 =
      (.admitGate :: .invocation 0 :: .sleep 1000 ::
         (handleRequest
            (fun n => if n = 0
              then Outcome.err (.axios ⟨some 429, none, none, "rl", none⟩)
              else Outcome.ok (7 : Nat)) 1 1).1,
       (handleRequest
          (fun n => if n = 0
            then Outcome.err (.axios ⟨some 429, none, none, "rl", none⟩)
            else Outcome.ok (7 : Nat)) 1 1).2)) ∧
    (handleRequest
       (fun n => if n = 0
         then Outcome.err (.axios ⟨some 429, none, none, "rl", none⟩)
         else Outcome.ok (7 : Nat)) 1 1).1.head? = some .admitGate :=
  rateLimit_backoff_retry
    (fun n => if n = 0
      then Outcome.err (.axios ⟨some 429, none, none, "rl", none⟩)
      else Outcome.ok (7 : Nat)) 0 0 (by decide)

/-- C4: a first invocation failing with any non-rate-limit error makes
handleRequest reject at once — one gate admission, one invocation, no sleep —
and the propagated error's message contains the original failure's
descriptive detail. -/
theorem terminal_error_propagation {T : Type} (outcomes : Nat → Outcome T)
    (e : ReqError) (fuel : Nat)
    (hout : outcomes 0 = .err e) (hrl : isRateLimit e = false) :
    handleRequest outcomes 0 (fuel + 1) =
      ([.admitGate, .invocation 0], some (.error (throwOf e))) ∧
    (∃ pre post,
       messageOfThrown (throwOf e) = pre ++ detailOf e ++ post) := by
  constructor
  · rw [handleRequest, hout]
    simp [hrl]
  · cases e with
    | axios a =>
        refine ⟨"Trello API error (" ++ statusRepr a.responseStatus ++ "): ",
                " [URL: " ++ urlOf a ++ "]", ?_⟩
        simp [throwOf, messageOfThrown, detailOf, wrappedMessage,
              String.append_assoc]
    | other m => exact ⟨"", "", by simp [throwOf, messageOfThrown, detailOf]⟩

/-- Witness for C4 at a request function that fails with a 404 axios error
carrying a remote-reported message. -/
theorem terminal_error_propagation_witness :
    handleRequest
        (fun _ => Outcome.err
          (.axios ⟨some 404, some "board not found", none, "Request failed",
                   some "/boards/x"⟩) : Nat → Outcome Nat) 0 5 =
      ([.admitGate, .invocation 0],
       some (.error (throwOf
         (.axios ⟨some 404, some "board not found", none, "Request failed",
                  some "/boards/x"⟩)))) ∧
    (∃ pre post,
       messageOfThrown (throwOf
           (.axios ⟨some 404, some "board not found", none, "Request failed",
                    some "/boards/x"⟩)) =
         pre ++ detailOf
           (.axios ⟨some 404, some "board not found", none, "Request failed",
                    some "/boards/x"⟩) ++ post) :=
  terminal_error_propagation
    (fun _ => Outcome.err
      (.axios ⟨some 404, some "board not found", none, "Request failed",
               some "/boards/x"⟩))
    (.axios ⟨some 404, some "board not found", none, "Request failed",
             some "/boards/x"⟩) 4 rfl (by decide)

/-- C5: a request function that succeeds immediately resolves verbatim with
its value, and one that is rate-limited exactly once then succeeds resolves
with the success value through a single completion — the returned result is
the success, with no intermediate rejection surfaced. -/
theorem retry_transparency {T : Type} (o1 o2 : Nat → Outcome T) (v : T)
    (e : ReqError) (fuel : Nat)
    (h1 : o1 0 = .ok v)
    (h2 : o2 0 = .err e) (hrl : isRateLimit e = true) (h3 : o2 1 = .ok v) :
    handleRequest o1 0 (fuel + 1) =
      ([.admitGate, .invocation 0], some (.ok v)) ∧
    handleRequest o2 0 (fuel + 2) =
      ([.admitGate, .invocation 0, .sleep 1000, .admitGate, .invocation 1],
       some (.ok v)) := by
  constructor
  · rw [handleRequest, h1]
  · rw [handleRequest, h2]
    simp only [hrl, if_true]
    rw [handleRequest, h3]

/-- Witness for C5: an immediately succeeding request and a
once-rate-limited-then-succeeding request both resolve with the value 7. -/
theorem retry_transparency_witness :
    handleRequest (fun _ => Outcome.ok (7 : Nat)) 0 1 =
      ([.admitGate, .invocation 0], some (.ok 7)) ∧
    handleRequest
        (fun n => if n = 0
          then Outcome.err (.axios ⟨some 429, none, none, "rl", none⟩)
          else Outcome.ok (7 : Nat)) 0 2 =
      ([.admitGate, .invocation 0, .sleep 1000, .admitGate, .invocation 1],
       some (.ok 7)) :=
  retry_transparency (fun _ => Outcome.ok (7 : Nat))
    (fun n => if n = 0
      then Outcome.err (.axios ⟨some 429, none, none, "rl", none⟩)
      else Outcome.ok (7 : Nat))
    7 (.axios ⟨some 429, none, none, "rl", none⟩) 0
    rfl rfl (by decide) rfl

/-- C6: there is no retry ceiling — against a request function that is
rate-limited on every invocation, handleRequest never produces a result no
matter how much fuel is allowed, and it performs exactly fuel invocations, so
for every n some execution performs more than n retries. -/
theorem unbounded_retry {T : Type} (outcomes : Nat → Outcome T)
    (h : ∀ n, isRateLimitOutcome (outcomes n) = true) :
    ∀ fuel attempt,
      (handleRequest outcomes attempt fuel).2 = none ∧
      countInvocations (handleRequest outcomes attempt fuel).1 = fuel := by
  intro fuel
  induction fuel with
  | zero => intro attempt; exact ⟨rfl, rfl⟩
  | succ fuel ih =>
      intro attempt
      have hn := h attempt
      cases hout : outcomes attempt with
      | ok v => rw [hout] at hn; simp [isRateLimitOutcome] at hn
      | err e =>
          rw [hout] at hn
          simp only [isRateLimitOutcome] at hn
          rw [handleRequest, hout]
          simp only [hn, if_true]
          refine ⟨(ih (attempt + 1)).1, ?_⟩
          simp [countInvocations, (ih (attempt + 1)).2]

/-- Witness for C6: an always-429 request function yields no result and n
invocations for fuel n, here n = 5. -/
theorem unbounded_retry_witness :
    (handleRequest
       (fun _ => Outcome.err (.axios ⟨some 429, none, none, "rl", none⟩)
         : Nat → Outcome Nat) 0 5).2 = none ∧
    countInvocations
      (handleRequest
        (fun _ => Outcome.err (.axios ⟨some 429, none, none, "rl", none⟩)
          : Nat → Outcome Nat) 0 5).1 = 5 :=
  unbounded_retry
    (fun _ => Outcome.err (.axios ⟨some 429, none, none, "rl", none⟩))
    (fun _ => rfl) 5 0

lemma truthy_eq_false_iff (o : Option String) :
    truthy o = false ↔ (o = none ∨ o = some "") := by
  cases o with
  | none => simp [truthy]
  | some s =>
      constructor
      · intro h
        right
        have hb : s.isEmpty = true := by
          cases hcase : s.isEmpty with
          | true => rfl
          | false =>
              rw [show truthy (some s) = !s.isEmpty from rfl, hcase] at h
              simp at h
        rw [String.isEmpty_iff] at hb
        rw [hb]
      · rintro (h | h)
        · exact absurd h (by simp)
        · rw [Option.some_inj] at h
          rw [h]
          rfl

lemma constructClient_error_iff (config : TrelloConfig) (env : EnvVars)
    (now : Int) :
    (∃ msg, constructClient config env now = .error msg) ↔
      (truthy (jsOr config.apiKey env.TRELLO_API_KEY) = false ∨
       truthy (jsOr config.token env.TRELLO_TOKEN) = false) := by
  unfold constructClient
  by_cases ha : truthy (jsOr config.apiKey env.TRELLO_API_KEY) <;>
    by_cases ht : truthy (jsOr config.token env.TRELLO_TOKEN) <;>
    simp [ha, ht]

lemma constructClient_error_msg (config : TrelloConfig) (env : EnvVars)
    (now : Int) (msg : String)
    (h : constructClient config env now = .error msg) :
    msg = credentialsErrorMsg := by
  unfold constructClient at h
  by_cases ha : truthy (jsOr config.apiKey env.TRELLO_API_KEY) <;>
    by_cases ht : truthy (jsOr config.token env.TRELLO_TOKEN) <;>
    simp [ha, ht] at h <;> exact h.symm

/-- C9: construction fails, with the descriptive credentials error, exactly
when after the env-var fallback the api key or the token is still undefined
or empty; on failure the error carries only the message — no client state
(axios instance, rate limiter) is built. -/
theorem constructor_requires_credentials (config : TrelloConfig)
    (env : EnvVars) (now : Int) :
    ((∃ msg, constructClient config env now = .error msg) ↔
      (jsOr config.apiKey env.TRELLO_API_KEY = none ∨
       jsOr config.apiKey env.TRELLO_API_KEY = some "" ∨
       jsOr config.token env.TRELLO_TOKEN = none ∨
       jsOr config.token env.TRELLO_TOKEN = some "")) ∧
    (∀ msg, constructClient config env now = .error msg →
       msg = credentialsErrorMsg) := by
  constructor
  · rw [constructClient_error_iff config env now,
        truthy_eq_false_iff, truthy_eq_false_iff]
    tauto
  · exact fun msg h => constructClient_error_msg config env now msg h

/-- Witness for C9: empty config with only an api key in the environment
fails with the credentials error; with both credentials present it does not
fail. -/
theorem constructor_requires_credentials_witness :
    (∃ msg, constructClient ⟨none, none, none⟩
       ⟨some "k", none, none⟩ 0 = .error msg) ∧
    ¬ (∃ msg, constructClient ⟨some "k", some "t", none⟩
       ⟨none, none, none⟩ 0 = .error msg) := by
  constructor
  · exact (constructor_requires_credentials ⟨none, none, none⟩
      ⟨some "k", none, none⟩ 0).1.mpr (by right; right; left; decide)
  · intro h
    have := (constructor_requires_credentials ⟨some "k", some "t", none⟩
      ⟨none, none, none⟩ 0).1.mp h
    rcases this with h2 | h2 | h2 | h2 <;> exact absurd h2 (by decide)

/-- C10: addList throws — returning an error before any outbound request is
built, independently of the name argument — exactly when the configured
board id is absent or not 24 characters long, while getLists performs no
board-id validation and always builds its request. -/
theorem addList_validates_boardId (boardId : Option String) (name : String) :
    ((∃ msg, addList boardId name = .error msg) ↔
      (boardId = none ∨ ∃ s, boardId = some s ∧ s.length ≠ 24)) ∧
    (∀ other msg, addList boardId name = .error msg →
       addList boardId other = .error msg) ∧
    (∃ req, getLists boardId = .ok req) := by
  refine ⟨?_, ?_, ⟨_, rfl⟩⟩
  · cases boardId with
    | none =>
        simp [addList, truthy, boardIdNotConfiguredMsg]
    | some s =>
        by_cases hlen : s.length = 24
        · have hne : ¬ s.isEmpty := by
            cases hemp : s.isEmpty
            · simp
            · rw [String.isEmpty_iff] at hemp
              rw [hemp] at hlen
              simp at hlen
          constructor
          · intro ⟨msg, hmsg⟩
            unfold addList at hmsg
            simp [truthy, hne, hlen] at hmsg
          · rintro (h | ⟨t, ht, hlen2⟩)
            · exact absurd h (by simp)
            · rw [Option.some_inj] at ht
              rw [ht] at hlen
              exact absurd hlen hlen2
        · constructor
          · intro _
            right
            exact ⟨s, rfl, hlen⟩
          · intro _
            by_cases hemp : s.isEmpty
            · exact ⟨boardIdNotConfiguredMsg, by simp [addList, truthy, hemp]⟩
            · exact ⟨invalidBoardIdMsg s, by simp [addList, truthy, hemp, hlen]⟩
  · intro other msg h
    cases boardId with
    | none => exact h
    | some s =>
        by_cases hemp : s.isEmpty
        · unfold addList at h ⊢
          simp [truthy, hemp] at h ⊢
          exact h
        · by_cases hlen : s.length = 24
          · unfold addList at h
            simp [truthy, hemp, hlen] at h
          · unfold addList at h ⊢
            simp [truthy, hemp, hlen] at h ⊢
            exact h

/-- Witness for C10: a 7-character board id makes addList throw for any
name, a 24-character id does not, and getLists never validates. -/
theorem addList_validates_boardId_witness :
    (∃ msg, addList (some "HIhpH6Z") "todo" = .error msg) ∧
    ¬ (∃ msg, addList (some "abcdefghijklmnopqrstuvwx") "todo" = .error msg) ∧
    (∃ req, getLists none = .ok req) := by
  refine ⟨?_, ?_, ?_⟩
  · exact (addList_validates_boardId (some "HIhpH6Z") "todo").1.mpr
      (by right; exact ⟨"HIhpH6Z", rfl, by decide⟩)
  · intro h
    have := (addList_validates_boardId
      (some "abcdefghijklmnopqrstuvwx") "todo").1.mp h
    rcases this with h2 | ⟨s, hs, hlen⟩
    · simp at h2
    · rw [Option.some_inj] at hs
      rw [← hs] at hlen
      exact hlen (by decide)
  · exact (addList_validates_boardId none "todo").2.2

end McpTrello
